import Mathlib

/-!
# Shallow embedding of the zeta q3 transactional ledger core

This file embeds the account/transaction data model and the debit/credit
service pipeline of the repository (src/q3/app/models and
src/q3/app/services) and proves properties of the embedded code.

Modelling conventions:
* SQLAlchemy `Numeric(18,2)` money amounts are embedded as `Rat`.
* Timestamps are `Nat` values; `datetime.utcnow` readings are passed as an
  explicit `now` parameter.
* `uuid.uuid4()` is passed as an explicit transaction-id parameter.
* An HTTP-layer `HTTPException(code, detail)` becomes `AppError.http code detail`;
  a raised `SQLAlchemyError` becomes `AppError.sqlAlchemyError msg`.
* A SQLAlchemy session accumulates pending changes and makes them durable only
  at `db.commit()`; `db.rollback()` discards them.  Accordingly a service call
  is a pure function from the committed database state to a result together
  with the next committed state, and a possible infrastructure failure of
  `db.commit()` is injected as an explicit `CommitOutcome` argument: on
  `CommitOutcome.failure` the service's `except SQLAlchemyError` branch runs
  (rollback, so the committed state is returned unchanged).
-/

namespace Zeta

/-- Embeds `TransactionType` from src/q3/app/models/transaction.py. -/
inductive TransactionType
  | DEBIT
  | CREDIT
deriving DecidableEq

/-- Embeds `TransactionStatus` from src/q3/app/models/transaction.py. -/
inductive TransactionStatus
  | PENDING
  | COMPLETED
  | FAILED
  | REVERSED
deriving DecidableEq

/-- Errors surfaced by the service layer (see the modelling conventions above). -/
inductive AppError
  | http (code : Nat) (detail : String)
  | sqlAlchemyError (msg : String)
  | attrError
deriving DecidableEq

/-- Whether the infrastructure-level `db.commit()` of one service call succeeds
or raises a `SQLAlchemyError`. -/
inductive CommitOutcome
  | success
  | failure (msg : String)
deriving DecidableEq

/-- Embeds the `Account` model (src/q3/app/models/account.py, with the
`created_at`/`updated_at` columns from `TimeStampedModel` in base.py). -/
structure Account where
  id : String
  account_number : String
  account_name : String
  balance : Rat
  currency : String
  is_active : Bool
  version : Nat
  created_at : Nat
  updated_at : Nat
deriving DecidableEq

/-- Embeds the `Transaction` model (src/q3/app/models/transaction.py, with the
`created_at`/`updated_at` columns from `TimeStampedModel` in base.py).
The `metadata` column is `Text` holding JSON or NULL, embedded as `Option String`. -/
structure Transaction where
  id : String
  account_id : String
  transaction_type : TransactionType
  amount : Rat
  currency : String
  status : TransactionStatus
  reference : Option String
  description : Option String
  metadata : Option String
  created_at : Nat
  updated_at : Nat
deriving DecidableEq

/-- The committed database state: the `accounts` and `transactions` tables. -/
structure DBState where
  accounts : List Account
  transactions : List Transaction
deriving DecidableEq

/-- Embeds `db.query(Account).filter(Account.id == i).first()`: the first
account row whose id equals `i`. -/
def findAccount : List Account → String → Option Account
  | [], _ => none
  | a :: rest, i => if a.id = i then some a else findAccount rest i

/-- Writing a mutated account row back to the table: replaces the first row
with the same id (the row the mutated object was loaded from). -/
def storeAccount : List Account → Account → List Account
  | [], _ => []
  | b :: rest, a => if b.id = a.id then a :: rest else b :: storeAccount rest a

/-- Embeds `db.query(Transaction).filter(Transaction.id == i).first()`. -/
def findTransaction : List Transaction → String → Option Transaction
  | [], _ => none
  | t :: rest, i => if t.id = i then some t else findTransaction rest i

/-- Writing a mutated transaction row back to the table. -/
def storeTransaction : List Transaction → Transaction → List Transaction
  | [], _ => []
  | u :: rest, t => if u.id = t.id then t :: rest else u :: storeTransaction rest t

/-- Embeds `json.dumps` restricted to the string-valued dicts the model needs:
a deterministic JSON rendering of the key/value pairs. -/
def json_dumps (d : List (String × String)) : String :=
  "\x7b" ++ String.intercalate ", " (d.map (fun kv => "\"" ++ kv.1 ++ "\": \"" ++ kv.2 ++ "\"")) ++ "\x7d"

/-- Embeds the pydantic `DebitCreate` schema (src/q3/app/schemas/transaction.py);
the caller-supplied `metadata` dict is an optional association list. -/
structure DebitCreate where
  account_id : String
  amount : Rat
  currency : String
  reference : Option String
  description : Option String
  metadata : Option (List (String × String))
deriving DecidableEq

/-- Embeds the pydantic `CreditCreate` schema (src/q3/app/schemas/transaction.py). -/
structure CreditCreate where
  account_id : String
  amount : Rat
  currency : String
  reference : Option String
  description : Option String
  metadata : Option (List (String × String))
deriving DecidableEq

/-- Embeds the pydantic `AccountUpdate` schema (src/q3/app/schemas/account.py). -/
structure AccountUpdate where
  account_name : Option String
  is_active : Option Bool
deriving DecidableEq

/-- Embeds `TransactionService._record_transaction`: builds the PENDING
transaction object added to the session.  The `metadata` column is
`json.dumps(metadata) if metadata else None`, where a `None` or empty dict is
falsy in Python, so both store NULL. -/
def record_transaction (txId : String) (transaction_type : TransactionType)
    (account_id : String) (amount : Rat) (currency : String)
    (reference : Option String) (description : Option String)
    (metadata : Option (List (String × String))) (now : Nat) : Transaction :=
  { id := txId
    account_id := account_id
    transaction_type := transaction_type
    amount := amount
    currency := currency
    status := TransactionStatus.PENDING
    reference := reference
    description := description
    metadata :=
      match metadata with
      | none => none
      | some d => if d = [] then none else some (json_dumps d)
    created_at := now
    updated_at := now }

/-- Embeds `TransactionService._update_transaction_status`.  The stored status
is overwritten with the requested one unconditionally.  In the source the
`status` parameter shadows the imported fastapi `status` module, so the
not-found branch's `status.HTTP_404_NOT_FOUND` raises `AttributeError`,
embedded as `AppError.attrError`.  With `commit = false` the change stays
session-local, so the committed state is unchanged. -/
def update_transaction_status (db : DBState) (transaction_id : String)
    (status : TransactionStatus) (commit : Bool) :
    Except AppError Transaction × DBState :=
  match findTransaction db.transactions transaction_id with
  | none => (Except.error AppError.attrError, db)
  | some transaction =>
    let transaction' := { transaction with status := status }
    if commit then
      (Except.ok transaction', { db with transactions := storeTransaction db.transactions transaction' })
    else
      (Except.ok transaction', db)

/-- Embeds the body of `TransactionService.debit_account` (one attempt, without
the tenacity decorator): load-and-lock the account, run the business checks,
add a PENDING transaction, apply the balance delta and version increment, mark
the transaction COMPLETED, then commit; every `HTTPException` path rolls back
and re-raises, and a `SQLAlchemyError` at commit rolls back and is converted to
an HTTP 500 error. -/
def debit_account (db : DBState) (outcome : CommitOutcome) (txId : String)
    (now : Nat) (debit_data : DebitCreate) : Except AppError Transaction × DBState :=
  match findAccount db.accounts debit_data.account_id with
  | none => (Except.error (AppError.http 404 "Account not found"), db)
  | some account =>
    if account.is_active = false then
      (Except.error (AppError.http 400 "Account is inactive"), db)
    else if account.currency ≠ debit_data.currency then
      (Except.error (AppError.http 400
        ("Currency mismatch. Account currency is " ++ account.currency ++
         ", transaction currency is " ++ debit_data.currency)), db)
    else if account.balance < debit_data.amount then
      (Except.error (AppError.http 400 "Insufficient funds"), db)
    else
      let transaction := record_transaction txId TransactionType.DEBIT account.id
        debit_data.amount account.currency debit_data.reference
        debit_data.description debit_data.metadata now
      let account' := { account with
        balance := account.balance - debit_data.amount
        version := account.version + 1
        updated_at := now }
      let transaction' := { transaction with status := TransactionStatus.COMPLETED }
      match outcome with
      | CommitOutcome.success =>
          (Except.ok transaction',
           { accounts := storeAccount db.accounts account'
             transactions := db.transactions ++ [transaction'] })
      | CommitOutcome.failure _ =>
          (Except.error (AppError.http 500 "Failed to process transaction due to database error"), db)

/-- Embeds the body of `TransactionService.credit_account` (one attempt, without
the tenacity decorator): same pipeline as `debit_account` but with no
insufficient-funds check and a positive balance delta. -/
def credit_account (db : DBState) (outcome : CommitOutcome) (txId : String)
    (now : Nat) (credit_data : CreditCreate) : Except AppError Transaction × DBState :=
  match findAccount db.accounts credit_data.account_id with
  | none => (Except.error (AppError.http 404 "Account not found"), db)
  | some account =>
    if account.is_active = false then
      (Except.error (AppError.http 400 "Account is inactive"), db)
    else if account.currency ≠ credit_data.currency then
      (Except.error (AppError.http 400
        ("Currency mismatch. Account currency is " ++ account.currency ++
         ", transaction currency is " ++ credit_data.currency)), db)
    else
      let transaction := record_transaction txId TransactionType.CREDIT account.id
        credit_data.amount account.currency credit_data.reference
        credit_data.description credit_data.metadata now
      let account' := { account with
        balance := account.balance + credit_data.amount
        version := account.version + 1
        updated_at := now }
      let transaction' := { transaction with status := TransactionStatus.COMPLETED }
      match outcome with
      | CommitOutcome.success =>
          (Except.ok transaction',
           { accounts := storeAccount db.accounts account'
             transactions := db.transactions ++ [transaction'] })
      | CommitOutcome.failure _ =>
          (Except.error (AppError.http 500 "Failed to process transaction due to database error"), db)

/-- Embeds `AccountService.update_account`: loads the account (404 when
absent), sets `account_name`/`is_active` only when supplied, always increments
`version`, and commits; the UPDATE refreshes `updated_at` (the `onupdate`
column default).  A name/active-flag update violates no table constraint, so
the `IntegrityError` branch of the source is unreachable here. -/
def update_account (db : DBState) (account_id : String)
    (account_data : AccountUpdate) (now : Nat) : Except AppError Account × DBState :=
  match findAccount db.accounts account_id with
  | none => (Except.error (AppError.http 404 "Account not found"), db)
  | some account =>
    let a1 := match account_data.account_name with
      | some n => { account with account_name := n }
      | none => account
    let a2 := match account_data.is_active with
      | some b => { a1 with is_active := b }
      | none => a1
    let a3 := { a2 with version := a2.version + 1, updated_at := now }
    (Except.ok a3, { db with accounts := storeAccount db.accounts a3 })

/-- Embeds `settings.MAX_TRANSACTION_RETRIES` (src/q3/app/core/config.py,
default value of the environment variable). -/
def MAX_TRANSACTION_RETRIES : Nat := 3

/-- Embeds `retry_if_exception_type(SQLAlchemyError)`: the tenacity retry
predicate used on `debit_account` and `credit_account`. -/
def retry_if_SQLAlchemyError : AppError → Bool
  | AppError.sqlAlchemyError _ => true
  | _ => false

/-- Embeds tenacity's `wait_exponential(multiplier=1, min=1, max=10)`: the wait
(in seconds) after the failure of attempt number `attempt_number`. -/
def wait_exponential (multiplier mn mx : Nat) (attempt_number : Nat) : Nat :=
  max (max 0 mn) (min (multiplier * 2 ^ (attempt_number - 1)) mx)

/-- Embeds the tenacity `@retry(stop=stop_after_attempt(stop), retry=retryPred, ...)`
combinator: run the wrapped call; when it raises an error matching `retryPred`
and attempts remain, re-run the whole call, else propagate the error.  The
`outcomes` function gives the infrastructure commit outcome of each attempt
(numbered from 1).  (When the predicate matches on the final allowed attempt,
tenacity wraps the error in a `RetryError`; in this code no raised error ever
matches the predicate, so that wrapping is unobservable and is not modelled.) -/
def retryCall {α : Type} (retryPred : AppError → Bool)
    (f : CommitOutcome → DBState → Except AppError α × DBState)
    (outcomes : Nat → CommitOutcome) :
    Nat → Nat → DBState → Except AppError α × DBState
  | _, 0, db => (Except.error (AppError.sqlAlchemyError "no attempts allowed"), db)
  | attempt, remaining + 1, db =>
    match f (outcomes attempt) db with
    | (Except.ok t, db') => (Except.ok t, db')
    | (Except.error e, db') =>
      if retryPred e = true then
        match remaining with
        | 0 => (Except.error e, db')
        | _ + 1 => retryCall retryPred f outcomes (attempt + 1) remaining db'
      else (Except.error e, db')

/-- The decorated `TransactionService.debit_account` as called by the endpoint:
the body wrapped by the tenacity retry policy. -/
def debit_account_retrying (db : DBState) (outcomes : Nat → CommitOutcome)
    (txId : String) (now : Nat) (debit_data : DebitCreate) :
    Except AppError Transaction × DBState :=
  retryCall retry_if_SQLAlchemyError
    (fun o s => debit_account s o txId now debit_data) outcomes 1 MAX_TRANSACTION_RETRIES db

/-- The decorated `TransactionService.credit_account` as called by the endpoint. -/
def credit_account_retrying (db : DBState) (outcomes : Nat → CommitOutcome)
    (txId : String) (now : Nat) (credit_data : CreditCreate) :
    Except AppError Transaction × DBState :=
  retryCall retry_if_SQLAlchemyError
    (fun o s => credit_account s o txId now credit_data) outcomes 1 MAX_TRANSACTION_RETRIES db

/-- A sequence of mutating service calls, as issued by the endpoints: each
carries the inputs of one call (and, for the retried debit/credit, the commit
outcome of the attempt). -/
inductive LedgerOp
  | debit (debit_data : DebitCreate) (outcome : CommitOutcome) (txId : String) (now : Nat)
  | credit (credit_data : CreditCreate) (outcome : CommitOutcome) (txId : String) (now : Nat)
  | update (account_id : String) (account_data : AccountUpdate) (now : Nat)

/-- The account id a mutating call targets. -/
def opTarget : LedgerOp → String
  | LedgerOp.debit dd _ _ _ => dd.account_id
  | LedgerOp.credit cd _ _ _ => cd.account_id
  | LedgerOp.update aid _ _ => aid

/-- The validation-layer guarantee `amount > 0` (pydantic `Field(..., gt=0)`)
on the operations that carry an amount. -/
def opAmountPos : LedgerOp → Prop
  | LedgerOp.debit dd _ _ _ => 0 < dd.amount
  | LedgerOp.credit cd _ _ _ => 0 < cd.amount
  | LedgerOp.update _ _ _ => True

/-- Run one mutating service call, recording whether it succeeded. -/
def applyOp (db : DBState) : LedgerOp → Bool × DBState
  | LedgerOp.debit dd o txId now =>
    match debit_account db o txId now dd with
    | (Except.ok _, db') => (true, db')
    | (Except.error _, db') => (false, db')
  | LedgerOp.credit cd o txId now =>
    match credit_account db o txId now cd with
    | (Except.ok _, db') => (true, db')
    | (Except.error _, db') => (false, db')
  | LedgerOp.update aid u now =>
    match update_account db aid u now with
    | (Except.ok _, db') => (true, db')
    | (Except.error _, db') => (false, db')

/-- Run a sequence of mutating service calls, counting the successful ones that
target the account `aid`. -/
def runOps (aid : String) : DBState → List LedgerOp → DBState × Nat
  | db, [] => (db, 0)
  | db, op :: ops =>
    let step := applyOp db op
    let rest := runOps aid step.2 ops
    (rest.1, (if step.1 = true ∧ opTarget op = aid then 1 else 0) + rest.2)

theorem findAccount_eq_some_id {l : List Account} {i : String} {a : Account}
    (h : findAccount l i = some a) : a.id = i := by
  induction l with
  | nil => simp [findAccount] at h
  | cons b rest ih =>
    rw [findAccount] at h
    by_cases hb : b.id = i
    · rw [if_pos hb] at h
      obtain rfl := Option.some.inj h
      exact hb
    · rw [if_neg hb] at h
      exact ih h

theorem findAccount_storeAccount_self {l : List Account} (a : Account)
    (h : (findAccount l a.id).isSome) :
    findAccount (storeAccount l a) a.id = some a := by
  induction l with
  | nil => simp [findAccount] at h
  | cons b rest ih =>
    rw [storeAccount]
    by_cases hb : b.id = a.id
    · rw [if_pos hb, findAccount, if_pos rfl]
    · rw [if_neg hb, findAccount, if_neg hb]
      apply ih
      rw [findAccount, if_neg hb] at h
      exact h

theorem findAccount_storeAccount_other {l : List Account} (a : Account) {i : String}
    (hne : i ≠ a.id) : findAccount (storeAccount l a) i = findAccount l i := by
  induction l with
  | nil => rfl
  | cons b rest ih =>
    rw [storeAccount]
    by_cases hb : b.id = a.id
    · rw [if_pos hb, findAccount, findAccount,
        if_neg (fun h => hne h.symm), if_neg (by rw [hb]; exact fun h => hne h.symm)]
    · rw [if_neg hb, findAccount, findAccount]
      by_cases hbi : b.id = i
      · rw [if_pos hbi, if_pos hbi]
      · rw [if_neg hbi, if_neg hbi]
        exact ih

/-- Case characterization of one `debit_account` attempt: either a failure that
returns the committed state unchanged, or the checks passed, the commit
succeeded, and the returned transaction and next state have exactly the shape
built by the success path. -/
theorem debit_account_spec (db : DBState) (o : CommitOutcome) (txId : String)
    (now : Nat) (dd : DebitCreate) :
    (∃ e, debit_account db o txId now dd = (Except.error e, db)) ∨
    (∃ a t, findAccount db.accounts dd.account_id = some a ∧
      a.is_active = true ∧ a.currency = dd.currency ∧ dd.amount ≤ a.balance ∧
      o = CommitOutcome.success ∧
      t = { record_transaction txId TransactionType.DEBIT a.id dd.amount a.currency
              dd.reference dd.description dd.metadata now with
            status := TransactionStatus.COMPLETED } ∧
      debit_account db o txId now dd =
        (Except.ok t,
         { accounts := storeAccount db.accounts
             { a with
               balance := a.balance - dd.amount
               version := a.version + 1
               updated_at := now }
           transactions := db.transactions ++ [t] })) := by
  unfold debit_account
  cases hf : findAccount db.accounts dd.account_id with
  | none => exact Or.inl ⟨_, rfl⟩
  | some a =>
    dsimp only
    by_cases h1 : a.is_active = false
    · rw [if_pos h1]
      exact Or.inl ⟨_, rfl⟩
    · rw [if_neg h1]
      by_cases h2 : a.currency ≠ dd.currency
      · rw [if_pos h2]
        exact Or.inl ⟨_, rfl⟩
      · rw [if_neg h2]
        by_cases h3 : a.balance < dd.amount
        · rw [if_pos h3]
          exact Or.inl ⟨_, rfl⟩
        · rw [if_neg h3]
          cases o with
          | failure msg => exact Or.inl ⟨_, rfl⟩
          | success =>
            refine Or.inr ⟨a, _, rfl, ?_, not_ne_iff.mp h2, not_lt.mp h3, rfl, rfl, rfl⟩
            cases hia : a.is_active
            · exact absurd hia h1
            · rfl

/-- Case characterization of one `credit_account` attempt. -/
theorem credit_account_spec (db : DBState) (o : CommitOutcome) (txId : String)
    (now : Nat) (cd : CreditCreate) :
    (∃ e, credit_account db o txId now cd = (Except.error e, db)) ∨
    (∃ a t, findAccount db.accounts cd.account_id = some a ∧
      a.is_active = true ∧ a.currency = cd.currency ∧
      o = CommitOutcome.success ∧
      t = { record_transaction txId TransactionType.CREDIT a.id cd.amount a.currency
              cd.reference cd.description cd.metadata now with
            status := TransactionStatus.COMPLETED } ∧
      credit_account db o txId now cd =
        (Except.ok t,
         { accounts := storeAccount db.accounts
             { a with
               balance := a.balance + cd.amount
               version := a.version + 1
               updated_at := now }
           transactions := db.transactions ++ [t] })) := by
  unfold credit_account
  cases hf : findAccount db.accounts cd.account_id with
  | none => exact Or.inl ⟨_, rfl⟩
  | some a =>
    dsimp only
    by_cases h1 : a.is_active = false
    · rw [if_pos h1]
      exact Or.inl ⟨_, rfl⟩
    · rw [if_neg h1]
      by_cases h2 : a.currency ≠ cd.currency
      · rw [if_pos h2]
        exact Or.inl ⟨_, rfl⟩
      · rw [if_neg h2]
        cases o with
        | failure msg => exact Or.inl ⟨_, rfl⟩
        | success =>
          refine Or.inr ⟨a, _, rfl, ?_, not_ne_iff.mp h2, rfl, rfl, rfl⟩
          cases hia : a.is_active
          · exact absurd hia h1
          · rfl

/-- Case characterization of `update_account`. -/
theorem update_account_spec (db : DBState) (aid : String) (u : AccountUpdate)
    (now : Nat) :
    (findAccount db.accounts aid = none ∧
      update_account db aid u now = (Except.error (AppError.http 404 "Account not found"), db)) ∨
    (∃ a a', findAccount db.accounts aid = some a ∧
      update_account db aid u now = (Except.ok a', { db with accounts := storeAccount db.accounts a' }) ∧
      a'.id = a.id ∧ a'.account_number = a.account_number ∧
      a'.account_name = (match u.account_name with | some n => n | none => a.account_name) ∧
      a'.balance = a.balance ∧ a'.currency = a.currency ∧
      a'.is_active = (match u.is_active with | some b => b | none => a.is_active) ∧
      a'.version = a.version + 1 ∧ a'.created_at = a.created_at ∧ a'.updated_at = now) := by
  unfold update_account
  cases hf : findAccount db.accounts aid with
  | none => exact Or.inl ⟨rfl, rfl⟩
  | some a =>
    obtain ⟨uname, uact⟩ := u
    cases uname <;> cases uact <;>
      exact Or.inr ⟨a, _, rfl, rfl, rfl, rfl, rfl, rfl, rfl, rfl, rfl, rfl, rfl⟩

/-- Effect of one mutating service call on one account row: the row survives,
its version grows by exactly 1 when the call succeeded and targeted it (else
it is unchanged, including on every failure path), and a non-negative balance
stays non-negative when the call's amount is positive. -/
theorem applyOp_account (db : DBState) (op : LedgerOp) (aid : String) (a : Account)
    (hfind : findAccount db.accounts aid = some a) :
    ∃ a', findAccount (applyOp db op).2.accounts aid = some a' ∧
      a'.version = a.version + (if (applyOp db op).1 = true ∧ opTarget op = aid then 1 else 0) ∧
      (opAmountPos op → 0 ≤ a.balance → 0 ≤ a'.balance) := by
  cases op with
  | debit dd o txId now =>
    rcases debit_account_spec db o txId now dd with ⟨e, he⟩ |
      ⟨a0, t, hf0, hact, hcur, hamt, ho, ht, hmain⟩
    · have happ : applyOp db (LedgerOp.debit dd o txId now) = (false, db) := by
        simp only [applyOp, he]
      rw [happ]
      dsimp only
      refine ⟨a, hfind, ?_, fun _ hb => hb⟩
      simp
    · have happ : applyOp db (LedgerOp.debit dd o txId now) =
        (true, { accounts := storeAccount db.accounts
                   { a0 with
                     balance := a0.balance - dd.amount
                     version := a0.version + 1
                     updated_at := now }
                 transactions := db.transactions ++ [t] }) := by
        simp only [applyOp, hmain]
      rw [happ]
      dsimp only
      by_cases htgt : dd.account_id = aid
      · subst htgt
        have ha0 : a0 = a := by
          apply Option.some.inj
          rw [← hf0, hfind]
        have hsome : (findAccount db.accounts a0.id).isSome := by
          rw [findAccount_eq_some_id hf0, hfind]
          rfl
        refine ⟨{ a0 with
                  balance := a0.balance - dd.amount
                  version := a0.version + 1
                  updated_at := now }, ?_, ?_, ?_⟩
        · rw [← findAccount_eq_some_id hf0]
          exact findAccount_storeAccount_self _ hsome
        · rw [if_pos ⟨rfl, rfl⟩]
          dsimp only
          rw [ha0]
        · intro _ _
          dsimp only
          exact sub_nonneg.mpr hamt
      · have hne : aid ≠ a0.id := by
          intro h
          apply htgt
          rw [← findAccount_eq_some_id hf0]
          exact h.symm
        refine ⟨a, ?_, ?_, fun _ hb => hb⟩
        · exact (findAccount_storeAccount_other
            { a0 with
              balance := a0.balance - dd.amount
              version := a0.version + 1
              updated_at := now } hne).trans hfind
        · simp [opTarget, htgt]
  | credit cd o txId now =>
    rcases credit_account_spec db o txId now cd with ⟨e, he⟩ |
      ⟨a0, t, hf0, hact, hcur, ho, ht, hmain⟩
    · have happ : applyOp db (LedgerOp.credit cd o txId now) = (false, db) := by
        simp only [applyOp, he]
      rw [happ]
      dsimp only
      refine ⟨a, hfind, ?_, fun _ hb => hb⟩
      simp
    · have happ : applyOp db (LedgerOp.credit cd o txId now) =
        (true, { accounts := storeAccount db.accounts
                   { a0 with
                     balance := a0.balance + cd.amount
                     version := a0.version + 1
                     updated_at := now }
                 transactions := db.transactions ++ [t] }) := by
        simp only [applyOp, hmain]
      rw [happ]
      dsimp only
      by_cases htgt : cd.account_id = aid
      · subst htgt
        have ha0 : a0 = a := by
          apply Option.some.inj
          rw [← hf0, hfind]
        have hsome : (findAccount db.accounts a0.id).isSome := by
          rw [findAccount_eq_some_id hf0, hfind]
          rfl
        refine ⟨{ a0 with
                  balance := a0.balance + cd.amount
                  version := a0.version + 1
                  updated_at := now }, ?_, ?_, ?_⟩
        · rw [← findAccount_eq_some_id hf0]
          exact findAccount_storeAccount_self _ hsome
        · rw [if_pos ⟨rfl, rfl⟩]
          dsimp only
          rw [ha0]
        · intro hpos hb
          dsimp only
          rw [ha0]
          exact add_nonneg hb (le_of_lt hpos)
      · have hne : aid ≠ a0.id := by
          intro h
          apply htgt
          rw [← findAccount_eq_some_id hf0]
          exact h.symm
        refine ⟨a, ?_, ?_, fun _ hb => hb⟩
        · exact (findAccount_storeAccount_other
            { a0 with
              balance := a0.balance + cd.amount
              version := a0.version + 1
              updated_at := now } hne).trans hfind
        · simp [opTarget, htgt]
  | update uid u now =>
    rcases update_account_spec db uid u now with ⟨hf0, hmain⟩ |
      ⟨a0, a1, hf0, hmain, hid, hnum, hname, hbal, hcur, hact, hver, hcre, hupd⟩
    · have happ : applyOp db (LedgerOp.update uid u now) = (false, db) := by
        simp only [applyOp, hmain]
      rw [happ]
      dsimp only
      refine ⟨a, hfind, ?_, fun _ hb => hb⟩
      simp
    · have happ : applyOp db (LedgerOp.update uid u now) =
        (true, { db with accounts := storeAccount db.accounts a1 }) := by
        simp only [applyOp, hmain]
      rw [happ]
      dsimp only
      by_cases htgt : uid = aid
      · subst htgt
        have ha0 : a0 = a := by
          apply Option.some.inj
          rw [← hf0, hfind]
        have hsome : (findAccount db.accounts a1.id).isSome := by
          rw [hid, findAccount_eq_some_id hf0, hfind]
          rfl
        refine ⟨a1, ?_, ?_, ?_⟩
        · rw [← show a1.id = uid from by rw [hid]; exact findAccount_eq_some_id hf0]
          exact findAccount_storeAccount_self a1 hsome
        · rw [if_pos ⟨rfl, rfl⟩, hver, ha0]
        · intro _ hb
          rw [hbal, ha0]
          exact hb
      · have hne : aid ≠ a1.id := by
          rw [hid, findAccount_eq_some_id hf0]
          exact fun h => htgt h.symm
        refine ⟨a, ?_, ?_, fun _ hb => hb⟩
        · exact (findAccount_storeAccount_other a1 hne).trans hfind
        · simp [opTarget, htgt]

/-- After a sequence of mutating calls, a surviving account row's version
equals its initial version plus the number of successful calls targeting it. -/
theorem runOps_version (aid : String) (db : DBState) (ops : List LedgerOp) (a : Account)
    (hfind : findAccount db.accounts aid = some a) :
    ∃ a', findAccount (runOps aid db ops).1.accounts aid = some a' ∧
      a'.version = a.version + (runOps aid db ops).2 := by
  induction ops generalizing db a with
  | nil => exact ⟨a, hfind, rfl⟩
  | cons op ops ih =>
    obtain ⟨a1, hf1, hv1, _⟩ := applyOp_account db op aid a hfind
    obtain ⟨a', hf', hv'⟩ := ih (applyOp db op).2 a1 hf1
    refine ⟨a', ?_, ?_⟩
    · simp only [runOps]
      exact hf'
    · simp only [runOps]
      rw [hv', hv1, Nat.add_assoc]

/-- If the first attempt of a retried call fails with an error the retry
predicate rejects, the wrapper stops immediately with that attempt's result. -/
theorem retryCall_first_not_retryable {α : Type} (retryPred : AppError → Bool)
    (f : CommitOutcome → DBState → Except AppError α × DBState)
    (outcomes : Nat → CommitOutcome) (attempt remaining : Nat) (db db' : DBState)
    (e : AppError) (hf : f (outcomes attempt) db = (Except.error e, db'))
    (hp : retryPred e = false) :
    retryCall retryPred f outcomes attempt (remaining + 1) db = (Except.error e, db') := by
  simp only [retryCall, hf, hp]
  rfl

/-- A violated business check makes one `debit_account` attempt fail with an
HTTP 404/400 error — the same error for every commit outcome, with the
committed state returned unchanged. -/
theorem debit_account_business_error (db : DBState) (dd : DebitCreate)
    (txId : String) (now : Nat)
    (hcond : findAccount db.accounts dd.account_id = none ∨
      ∃ a, findAccount db.accounts dd.account_id = some a ∧
        (a.is_active = false ∨ a.currency ≠ dd.currency ∨ a.balance < dd.amount)) :
    ∃ code detail, (code = 404 ∨ code = 400) ∧
      ∀ o, debit_account db o txId now dd =
        (Except.error (AppError.http code detail), db) := by
  rcases hcond with hnone | ⟨a, hfind, hsub⟩
  · refine ⟨404, "Account not found", Or.inl rfl, fun o => ?_⟩
    unfold debit_account
    rw [hnone]
  · by_cases h1 : a.is_active = false
    · refine ⟨400, "Account is inactive", Or.inr rfl, fun o => ?_⟩
      unfold debit_account
      rw [hfind]
      dsimp only
      rw [if_pos h1]
    · by_cases h2 : a.currency ≠ dd.currency
      · refine ⟨400, "Currency mismatch. Account currency is " ++ a.currency ++
          ", transaction currency is " ++ dd.currency, Or.inr rfl, fun o => ?_⟩
        unfold debit_account
        rw [hfind]
        dsimp only
        rw [if_neg h1, if_pos h2]
      · have h3 : a.balance < dd.amount := by
          rcases hsub with h | h | h
          · exact absurd h h1
          · exact absurd h h2
          · exact h
        refine ⟨400, "Insufficient funds", Or.inr rfl, fun o => ?_⟩
        unfold debit_account
        rw [hfind]
        dsimp only
        rw [if_neg h1, if_neg h2, if_pos h3]

/-- A violated business check makes one `credit_account` attempt fail with an
HTTP 404/400 error — the same error for every commit outcome, with the
committed state returned unchanged. -/
theorem credit_account_business_error (db : DBState) (cd : CreditCreate)
    (txId : String) (now : Nat)
    (hcond : findAccount db.accounts cd.account_id = none ∨
      ∃ a, findAccount db.accounts cd.account_id = some a ∧
        (a.is_active = false ∨ a.currency ≠ cd.currency)) :
    ∃ code detail, (code = 404 ∨ code = 400) ∧
      ∀ o, credit_account db o txId now cd =
        (Except.error (AppError.http code detail), db) := by
  rcases hcond with hnone | ⟨a, hfind, hsub⟩
  · refine ⟨404, "Account not found", Or.inl rfl, fun o => ?_⟩
    unfold credit_account
    rw [hnone]
  · by_cases h1 : a.is_active = false
    · refine ⟨400, "Account is inactive", Or.inr rfl, fun o => ?_⟩
      unfold credit_account
      rw [hfind]
      dsimp only
      rw [if_pos h1]
    · have h2 : a.currency ≠ cd.currency := by
        rcases hsub with h | h
        · exact absurd h h1
        · exact h
      refine ⟨400, "Currency mismatch. Account currency is " ++ a.currency ++
        ", transaction currency is " ++ cd.currency, Or.inr rfl, fun o => ?_⟩
      unfold credit_account
      rw [hfind]
      dsimp only
      rw [if_neg h1, if_pos h2]

/-- Sample account row used by the concrete witnesses below. -/
def acctS : Account :=
  { id := "a1"
    account_number := "ACC001"
    account_name := "Alice"
    balance := 1000
    currency := "USD"
    is_active := true
    version := 1
    created_at := 0
    updated_at := 0 }

/-- Sample committed state with one account and an empty transaction log. -/
def dbS : DBState := { accounts := [acctS], transactions := [] }

/-- Sample debit request for 100 USD against the sample account. -/
def ddS : DebitCreate :=
  { account_id := "a1"
    amount := 100
    currency := "USD"
    reference := none
    description := none
    metadata := none }

/-- Sample credit request for 50 USD against the sample account. -/
def cdS : CreditCreate :=
  { account_id := "a1"
    amount := 50
    currency := "USD"
    reference := none
    description := none
    metadata := none }

/-- A commit-time storage failure on a debit whose business checks pass makes
the attempt return the HTTP 500 storage error with the committed state
unchanged. -/
theorem debit_account_commit_failure (db : DBState) (dd : DebitCreate)
    (txId : String) (now : Nat) (a : Account) (msg : String)
    (hfind : findAccount db.accounts dd.account_id = some a)
    (hact : a.is_active = true) (hcur : a.currency = dd.currency)
    (hamt : dd.amount ≤ a.balance) :
    debit_account db (CommitOutcome.failure msg) txId now dd =
      (Except.error (AppError.http 500 "Failed to process transaction due to database error"), db) := by
  unfold debit_account
  rw [hfind]
  dsimp only
  rw [if_neg (by simp [hact]), if_neg (by simp [hcur]), if_neg (not_lt.mpr hamt)]

/-- A commit-time storage failure on a credit whose business checks pass makes
the attempt return the HTTP 500 storage error with the committed state
unchanged. -/
theorem credit_account_commit_failure (db : DBState) (cd : CreditCreate)
    (txId : String) (now : Nat) (a : Account) (msg : String)
    (hfind : findAccount db.accounts cd.account_id = some a)
    (hact : a.is_active = true) (hcur : a.currency = cd.currency) :
    credit_account db (CommitOutcome.failure msg) txId now cd =
      (Except.error (AppError.http 500 "Failed to process transaction due to database error"), db) := by
  unfold credit_account
  rw [hfind]
  dsimp only
  rw [if_neg (by simp [hact]), if_neg (by simp [hcur])]

/-- C1: for every account with balance ≥ 0 before an operation, every committed
debit or credit (with amount > 0, as the validation layer guarantees) leaves
its balance ≥ 0; and a debit only returns success when its amount was at most
the account's balance — so no committed state has a negative balance. -/
theorem c1_committed_balance_nonneg :
    (∀ db op aid a, opAmountPos op → findAccount db.accounts aid = some a →
      0 ≤ a.balance →
      ∃ a', findAccount (applyOp db op).2.accounts aid = some a' ∧ 0 ≤ a'.balance)
    ∧ (∀ db o txId now dd t db',
      debit_account db o txId now dd = (Except.ok t, db') →
      ∃ a, findAccount db.accounts dd.account_id = some a ∧ dd.amount ≤ a.balance) := by
  constructor
  · intro db op aid a hpos hfind hnn
    obtain ⟨a', hf', _, hb⟩ := applyOp_account db op aid a hfind
    exact ⟨a', hf', hb hpos hnn⟩
  · intro db o txId now dd t db' h
    rcases debit_account_spec db o txId now dd with ⟨e, he⟩ |
      ⟨a, t0, hf0, _, _, hamt, _, _, hmain⟩
    · have hcontra := he.symm.trans h
      simp at hcontra
    · exact ⟨a, hf0, hamt⟩

/-- Witness for C1 at the sample state: a committed 100 USD debit of the
1000 USD account keeps the balance non-negative. -/
theorem c1_committed_balance_nonneg_witness :
    (0 : Rat) < ddS.amount ∧ findAccount dbS.accounts "a1" = some acctS ∧
    (0 : Rat) ≤ acctS.balance ∧
    ∃ a', findAccount (applyOp dbS (LedgerOp.debit ddS CommitOutcome.success "t1" 7)).2.accounts "a1" = some a' ∧
      0 ≤ a'.balance :=
  ⟨by decide, rfl, by decide,
    c1_committed_balance_nonneg.1 dbS (LedgerOp.debit ddS CommitOutcome.success "t1" 7)
      "a1" acctS (show (0 : Rat) < ddS.amount by decide) rfl (by decide)⟩

/-- C2: a storage failure during the commit of a debit or credit rolls the
whole atomic unit back — the committed state (accounts, versions, and the
transaction log) is returned exactly unchanged, and the HTTP 500 storage error
is surfaced to the caller, also through the retry wrapper. -/
theorem c2_commit_failure_rolls_back :
    (∀ db dd txId now a msg, findAccount db.accounts dd.account_id = some a →
      a.is_active = true → a.currency = dd.currency → dd.amount ≤ a.balance →
      debit_account db (CommitOutcome.failure msg) txId now dd =
        (Except.error (AppError.http 500 "Failed to process transaction due to database error"), db))
    ∧ (∀ db cd txId now a msg, findAccount db.accounts cd.account_id = some a →
      a.is_active = true → a.currency = cd.currency →
      credit_account db (CommitOutcome.failure msg) txId now cd =
        (Except.error (AppError.http 500 "Failed to process transaction due to database error"), db))
    ∧ (∀ db dd txId now a msg outcomes,
      findAccount db.accounts dd.account_id = some a →
      a.is_active = true → a.currency = dd.currency → dd.amount ≤ a.balance →
      outcomes 1 = CommitOutcome.failure msg →
      debit_account_retrying db outcomes txId now dd =
        (Except.error (AppError.http 500 "Failed to process transaction due to database error"), db))
    ∧ (∀ db cd txId now a msg outcomes,
      findAccount db.accounts cd.account_id = some a →
      a.is_active = true → a.currency = cd.currency →
      outcomes 1 = CommitOutcome.failure msg →
      credit_account_retrying db outcomes txId now cd =
        (Except.error (AppError.http 500 "Failed to process transaction due to database error"), db)) := by
  refine ⟨debit_account_commit_failure, credit_account_commit_failure, ?_, ?_⟩
  · intro db dd txId now a msg outcomes hfind hact hcur hamt h1
    refine retryCall_first_not_retryable _ _ outcomes 1 2 db db _ ?_ rfl
    show debit_account db (outcomes 1) txId now dd = _
    rw [h1]
    exact debit_account_commit_failure db dd txId now a msg hfind hact hcur hamt
  · intro db cd txId now a msg outcomes hfind hact hcur h1
    refine retryCall_first_not_retryable _ _ outcomes 1 2 db db _ ?_ rfl
    show credit_account db (outcomes 1) txId now cd = _
    rw [h1]
    exact credit_account_commit_failure db cd txId now a msg hfind hact hcur

/-- Witness for C2 at the sample state: a failing commit of a valid 100 USD
debit surfaces the storage error and leaves the committed state untouched. -/
theorem c2_commit_failure_rolls_back_witness :
    findAccount dbS.accounts ddS.account_id = some acctS ∧
    acctS.is_active = true ∧ acctS.currency = ddS.currency ∧
    ddS.amount ≤ acctS.balance ∧
    debit_account dbS (CommitOutcome.failure "connection dropped") "t1" 7 ddS =
      (Except.error (AppError.http 500 "Failed to process transaction due to database error"), dbS) :=
  ⟨rfl, rfl, rfl, by decide,
    c2_commit_failure_rolls_back.1 dbS ddS "t1" 7 acctS "connection dropped"
      rfl rfl rfl (by decide)⟩

/-- Commit outcomes for the retry analysis: the first attempt's commit raises a
`SQLAlchemyError`, every later attempt's commit would succeed. -/
def outcomesFailFirst : Nat → CommitOutcome :=
  fun n => if n = 1 then CommitOutcome.failure "connection dropped" else CommitOutcome.success

/-- The transaction a successful sample debit returns. -/
def txS : Transaction :=
  { id := "t1"
    account_id := "a1"
    transaction_type := TransactionType.DEBIT
    amount := 100
    currency := "USD"
    status := TransactionStatus.COMPLETED
    reference := none
    description := none
    metadata := none
    created_at := 7
    updated_at := 7 }

/-- C3 (code bug): the tenacity policy on `debit_account`/`credit_account` is
configured to retry `SQLAlchemyError` up to `MAX_TRANSACTION_RETRIES` with
exponential backoff, but the function body catches `SQLAlchemyError` and
re-raises it as an `HTTPException` with status 500, which the retry predicate
`retry_if_exception_type(SQLAlchemyError)` does not match — so a transient
commit failure on the first attempt is surfaced immediately and the operation
is never re-run, even though (second conjunct) the very same call with a
succeeding commit completes the debit. -/
theorem c3_transient_failure_never_retried :
    debit_account_retrying dbS outcomesFailFirst "t1" 7 ddS =
      (Except.error (AppError.http 500 "Failed to process transaction due to database error"), dbS)
    ∧ debit_account dbS (outcomesFailFirst 2) "t1" 7 ddS =
      (Except.ok txS,
       { accounts := [{ acctS with
           balance := acctS.balance - ddS.amount
           version := 2
           updated_at := 7 }]
         transactions := [txS] })
    ∧ acctS.balance - ddS.amount = 900
    ∧ retry_if_SQLAlchemyError
        (AppError.http 500 "Failed to process transaction due to database error") = false :=
  ⟨rfl, rfl, by norm_num [acctS, ddS], rfl⟩

/-- Sample deactivated account row. -/
def acctI : Account :=
  { id := "a2"
    account_number := "ACC002"
    account_name := "Bob"
    balance := 500
    currency := "USD"
    is_active := false
    version := 4
    created_at := 0
    updated_at := 0 }

/-- Sample committed state holding only the deactivated account. -/
def dbI : DBState := { accounts := [acctI], transactions := [] }

/-- Sample debit request against the deactivated account. -/
def ddI : DebitCreate :=
  { account_id := "a2"
    amount := 10
    currency := "USD"
    reference := none
    description := none
    metadata := none }

/-- C4: a debit or credit that violates a business rule (account not found,
inactive, currency mismatch, or — for debit — insufficient funds) fails with
an HTTP 404/400 error before any mutation: the committed state is returned
exactly unchanged (so no transaction row is appended and balance and version
are untouched) for every commit outcome, the error does not match the retry
predicate, and the retry wrapper surfaces the same error without re-running
the operation. -/
theorem c4_business_failures_terminal :
    (∀ db dd txId now,
      (findAccount db.accounts dd.account_id = none ∨
        ∃ a, findAccount db.accounts dd.account_id = some a ∧
          (a.is_active = false ∨ a.currency ≠ dd.currency ∨ a.balance < dd.amount)) →
      ∃ code detail, (code = 404 ∨ code = 400) ∧
        (∀ o, debit_account db o txId now dd =
          (Except.error (AppError.http code detail), db)) ∧
        retry_if_SQLAlchemyError (AppError.http code detail) = false ∧
        (∀ outcomes, debit_account_retrying db outcomes txId now dd =
          (Except.error (AppError.http code detail), db)))
    ∧ (∀ db cd txId now,
      (findAccount db.accounts cd.account_id = none ∨
        ∃ a, findAccount db.accounts cd.account_id = some a ∧
          (a.is_active = false ∨ a.currency ≠ cd.currency)) →
      ∃ code detail, (code = 404 ∨ code = 400) ∧
        (∀ o, credit_account db o txId now cd =
          (Except.error (AppError.http code detail), db)) ∧
        retry_if_SQLAlchemyError (AppError.http code detail) = false ∧
        (∀ outcomes, credit_account_retrying db outcomes txId now cd =
          (Except.error (AppError.http code detail), db))) := by
  constructor
  · intro db dd txId now hcond
    obtain ⟨code, detail, hc, hall⟩ := debit_account_business_error db dd txId now hcond
    refine ⟨code, detail, hc, hall, rfl, fun outcomes => ?_⟩
    exact retryCall_first_not_retryable _ _ outcomes 1 2 db db _ (hall (outcomes 1)) rfl
  · intro db cd txId now hcond
    obtain ⟨code, detail, hc, hall⟩ := credit_account_business_error db cd txId now hcond
    refine ⟨code, detail, hc, hall, rfl, fun outcomes => ?_⟩
    exact retryCall_first_not_retryable _ _ outcomes 1 2 db db _ (hall (outcomes 1)) rfl

/-- Witness for C4 at the sample state: debiting the deactivated account fails
with a business error, mutating nothing and retrying nothing. -/
theorem c4_business_failures_terminal_witness :
    (findAccount dbI.accounts ddI.account_id = some acctI ∧ acctI.is_active = false) ∧
    ∃ code detail, (code = 404 ∨ code = 400) ∧
      (∀ o, debit_account dbI o "t1" 7 ddI =
        (Except.error (AppError.http code detail), dbI)) ∧
      retry_if_SQLAlchemyError (AppError.http code detail) = false ∧
      (∀ outcomes, debit_account_retrying dbI outcomes "t1" 7 ddI =
        (Except.error (AppError.http code detail), dbI)) :=
  ⟨⟨rfl, rfl⟩,
    c4_business_failures_terminal.1 dbI ddI "t1" 7 (Or.inr ⟨acctI, rfl, Or.inl rfl⟩)⟩

/-- C5: each successful mutating call (debit, credit, account update) on an
account increments its version by exactly 1 while failed calls leave it
unchanged; hence after any sequence of calls the version equals the initial
version plus the number of successful calls that targeted the account. -/
theorem c5_version_counts_successful_ops :
    (∀ db op aid a, findAccount db.accounts aid = some a →
      ∃ a', findAccount (applyOp db op).2.accounts aid = some a' ∧
        a'.version = a.version +
          (if (applyOp db op).1 = true ∧ opTarget op = aid then 1 else 0))
    ∧ (∀ db aid a ops, findAccount db.accounts aid = some a →
      ∃ a', findAccount (runOps aid db ops).1.accounts aid = some a' ∧
        a'.version = a.version + (runOps aid db ops).2) := by
  constructor
  · intro db op aid a h
    obtain ⟨a', h1, h2, _⟩ := applyOp_account db op aid a h
    exact ⟨a', h1, h2⟩
  · intro db aid a ops h
    exact runOps_version aid db ops a h

/-- Sample sequence of calls: a successful debit, a successful credit, a debit
rejected for insufficient funds, and a no-field account update. -/
def opsS : List LedgerOp :=
  [LedgerOp.debit ddS CommitOutcome.success "t1" 7,
   LedgerOp.credit cdS CommitOutcome.success "t2" 8,
   LedgerOp.debit { ddS with amount := 1000000 } CommitOutcome.success "t3" 9,
   LedgerOp.update "a1" { account_name := none, is_active := none } 10]

/-- Witness for C5 at the sample state: after the sample call sequence the
account's version is its initial version plus the number of successful calls
targeting it (the insufficient-funds debit not counting). -/
theorem c5_version_counts_successful_ops_witness :
    findAccount dbS.accounts "a1" = some acctS ∧
    ∃ a', findAccount (runOps "a1" dbS opsS).1.accounts "a1" = some a' ∧
      a'.version = acctS.version + (runOps "a1" dbS opsS).2 :=
  ⟨rfl, c5_version_counts_successful_ops.2 dbS "a1" acctS opsS rfl⟩

/-- C6: for every active account with balance 1000.00 and currency USD, a
debit of 100.00 USD with a succeeding commit returns a COMPLETED DEBIT
transaction over 100.00 in the account's currency, and leaves the account at
balance 900.00 with its version incremented by exactly 1. -/
theorem c6_debit_scenario (db : DBState) (dd : DebitCreate) (txId : String)
    (now : Nat) (a : Account)
    (hfind : findAccount db.accounts dd.account_id = some a)
    (hact : a.is_active = true) (hbal : a.balance = 1000) (hcur : a.currency = "USD")
    (hamt : dd.amount = 100) (hdcur : dd.currency = "USD") :
    ∃ t db', debit_account db CommitOutcome.success txId now dd = (Except.ok t, db') ∧
      t.transaction_type = TransactionType.DEBIT ∧
      t.status = TransactionStatus.COMPLETED ∧
      t.amount = 100 ∧ t.currency = a.currency ∧
      ∃ a', findAccount db'.accounts dd.account_id = some a' ∧
        a'.balance = 900 ∧ a'.version = a.version + 1 := by
  unfold debit_account
  rw [hfind]
  dsimp only
  rw [if_neg (by simp [hact]), if_neg (by simp [hcur, hdcur]),
    if_neg (by rw [hbal, hamt]; norm_num)]
  refine ⟨{ record_transaction txId TransactionType.DEBIT a.id dd.amount a.currency
              dd.reference dd.description dd.metadata now with
            status := TransactionStatus.COMPLETED },
          { accounts := storeAccount db.accounts
              { a with
                balance := a.balance - dd.amount
                version := a.version + 1
                updated_at := now }
            transactions := db.transactions ++
              [{ record_transaction txId TransactionType.DEBIT a.id dd.amount a.currency
                   dd.reference dd.description dd.metadata now with
                 status := TransactionStatus.COMPLETED }] },
          rfl, rfl, rfl, hamt, rfl, ?_⟩
  refine ⟨{ a with
            balance := a.balance - dd.amount
            version := a.version + 1
            updated_at := now }, ?_, ?_, rfl⟩
  · rw [← findAccount_eq_some_id hfind]
    exact findAccount_storeAccount_self _ (by rw [findAccount_eq_some_id hfind, hfind]; rfl)
  · dsimp only
    rw [hbal, hamt]
    norm_num

/-- Witness for C6 at the sample state. -/
theorem c6_debit_scenario_witness :
    findAccount dbS.accounts ddS.account_id = some acctS ∧
    acctS.is_active = true ∧ acctS.balance = 1000 ∧ acctS.currency = "USD" ∧
    ddS.amount = 100 ∧ ddS.currency = "USD" ∧
    ∃ t db', debit_account dbS CommitOutcome.success "t1" 7 ddS = (Except.ok t, db') ∧
      t.transaction_type = TransactionType.DEBIT ∧
      t.status = TransactionStatus.COMPLETED ∧
      t.amount = 100 ∧ t.currency = acctS.currency ∧
      ∃ a', findAccount db'.accounts ddS.account_id = some a' ∧
        a'.balance = 900 ∧ a'.version = acctS.version + 1 :=
  ⟨rfl, rfl, rfl, rfl, rfl, rfl,
    c6_debit_scenario dbS ddS "t1" 7 acctS rfl rfl rfl rfl rfl rfl⟩

/-- C8: for every active account, a debit whose amount exactly equals the
current balance passes the strict insufficient-funds check (which fails only
when balance < amount) and commits, leaving the balance exactly 0. -/
theorem c8_debit_exact_balance_succeeds (db : DBState) (dd : DebitCreate)
    (txId : String) (now : Nat) (a : Account)
    (hfind : findAccount db.accounts dd.account_id = some a)
    (hact : a.is_active = true) (hcur : a.currency = dd.currency)
    (hamt : dd.amount = a.balance) :
    ∃ t db', debit_account db CommitOutcome.success txId now dd = (Except.ok t, db') ∧
      t.status = TransactionStatus.COMPLETED ∧
      ∃ a', findAccount db'.accounts dd.account_id = some a' ∧ a'.balance = 0 := by
  unfold debit_account
  rw [hfind]
  dsimp only
  rw [if_neg (by simp [hact]), if_neg (by simp [hcur]),
    if_neg (by rw [hamt]; exact lt_irrefl a.balance)]
  refine ⟨{ record_transaction txId TransactionType.DEBIT a.id dd.amount a.currency
              dd.reference dd.description dd.metadata now with
            status := TransactionStatus.COMPLETED },
          { accounts := storeAccount db.accounts
              { a with
                balance := a.balance - dd.amount
                version := a.version + 1
                updated_at := now }
            transactions := db.transactions ++
              [{ record_transaction txId TransactionType.DEBIT a.id dd.amount a.currency
                   dd.reference dd.description dd.metadata now with
                 status := TransactionStatus.COMPLETED }] },
          rfl, rfl, ?_⟩
  refine ⟨{ a with
            balance := a.balance - dd.amount
            version := a.version + 1
            updated_at := now }, ?_, ?_⟩
  · rw [← findAccount_eq_some_id hfind]
    exact findAccount_storeAccount_self _ (by rw [findAccount_eq_some_id hfind, hfind]; rfl)
  · dsimp only
    rw [hamt]
    exact sub_self a.balance

/-- Sample debit request whose amount equals the sample account's balance. -/
def ddE : DebitCreate :=
  { account_id := "a1"
    amount := 1000
    currency := "USD"
    reference := none
    description := none
    metadata := none }

/-- Witness for C8 at the sample state: a 1000 USD debit of the 1000 USD
account succeeds and zeroes the balance. -/
theorem c8_debit_exact_balance_succeeds_witness :
    findAccount dbS.accounts ddE.account_id = some acctS ∧
    acctS.is_active = true ∧ acctS.currency = ddE.currency ∧
    ddE.amount = acctS.balance ∧
    ∃ t db', debit_account dbS CommitOutcome.success "t1" 7 ddE = (Except.ok t, db') ∧
      t.status = TransactionStatus.COMPLETED ∧
      ∃ a', findAccount db'.accounts ddE.account_id = some a' ∧ a'.balance = 0 :=
  ⟨rfl, rfl, rfl, rfl,
    c8_debit_exact_balance_succeeds dbS ddE "t1" 7 acctS rfl rfl rfl rfl⟩

/-- C9: an account update with both optional inputs absent still succeeds,
still increments the version by 1 and refreshes `updated_at`, while leaving
account number, name, balance, currency, and active flag unchanged — a
no-field update is observably a mutation. -/
theorem c9_empty_update_increments_version (db : DBState) (aid : String)
    (now : Nat) (a : Account) (hfind : findAccount db.accounts aid = some a) :
    ∃ a', update_account db aid { account_name := none, is_active := none } now =
        (Except.ok a', { db with accounts := storeAccount db.accounts a' }) ∧
      a'.version = a.version + 1 ∧ a'.updated_at = now ∧
      a'.account_number = a.account_number ∧ a'.account_name = a.account_name ∧
      a'.balance = a.balance ∧ a'.currency = a.currency ∧
      a'.is_active = a.is_active := by
  unfold update_account
  rw [hfind]
  dsimp only
  exact ⟨{ a with version := a.version + 1, updated_at := now },
    rfl, rfl, rfl, rfl, rfl, rfl, rfl, rfl⟩

/-- Witness for C9 at the sample state. -/
theorem c9_empty_update_increments_version_witness :
    findAccount dbS.accounts "a1" = some acctS ∧
    ∃ a', update_account dbS "a1" { account_name := none, is_active := none } 7 =
        (Except.ok a', { dbS with accounts := storeAccount dbS.accounts a' }) ∧
      a'.version = acctS.version + 1 ∧ a'.updated_at = 7 ∧
      a'.account_number = acctS.account_number ∧ a'.account_name = acctS.account_name ∧
      a'.balance = acctS.balance ∧ a'.currency = acctS.currency ∧
      a'.is_active = acctS.is_active :=
  ⟨rfl, c9_empty_update_increments_version dbS "a1" 7 acctS rfl⟩

/-- C10: a stored transaction's metadata column is the JSON serialization of
the caller-supplied metadata only when that metadata is non-empty; an absent
metadata and an empty dict are both stored as NULL, so the two are
indistinguishable in the recorded transaction. -/
theorem c10_metadata_empty_as_null (txId : String) (tt : TransactionType)
    (aid : String) (amt : Rat) (cur : String) (ref desc : Option String)
    (now : Nat) :
    (record_transaction txId tt aid amt cur ref desc none now).metadata = none ∧
    (record_transaction txId tt aid amt cur ref desc (some []) now).metadata = none ∧
    (∀ d, d ≠ [] →
      (record_transaction txId tt aid amt cur ref desc (some d) now).metadata =
        some (json_dumps d)) ∧
    record_transaction txId tt aid amt cur ref desc (some []) now =
      record_transaction txId tt aid amt cur ref desc none now := by
  refine ⟨rfl, rfl, fun d hd => ?_, rfl⟩
  show (if d = [] then (none : Option String) else some (json_dumps d)) = some (json_dumps d)
  rw [if_neg hd]

/-- Witness for C10 at concrete metadata values. -/
theorem c10_metadata_empty_as_null_witness :
    [("channel", "web")] ≠ ([] : List (String × String)) ∧
    (record_transaction "t1" TransactionType.DEBIT "a1" 5 "USD" none none
      (some [("channel", "web")]) 7).metadata = some (json_dumps [("channel", "web")]) :=
  ⟨List.cons_ne_nil _ _,
    (c10_metadata_empty_as_null "t1" TransactionType.DEBIT "a1" 5 "USD" none none 7).2.2.1
      [("channel", "web")] (List.cons_ne_nil _ _)⟩

/-- Sample stored transaction in status COMPLETED, for the setStatus analysis. -/
def txC : Transaction :=
  { id := "t9"
    account_id := "a1"
    transaction_type := TransactionType.DEBIT
    amount := 25
    currency := "USD"
    status := TransactionStatus.COMPLETED
    reference := none
    description := none
    metadata := none
    created_at := 3
    updated_at := 3 }

/-- Sample committed state holding the COMPLETED transaction. -/
def dbC : DBState := { accounts := [], transactions := [txC] }

/-- C7 counterexample: the status-update helper is not monotonic — requesting
PENDING on a stored COMPLETED transaction commits the backwards transition. -/
theorem c7_setStatus_backwards_counterexample :
    txC.status = TransactionStatus.COMPLETED ∧
    update_transaction_status dbC "t9" TransactionStatus.PENDING true =
      (Except.ok { txC with status := TransactionStatus.PENDING },
       { accounts := []
         transactions := [{ txC with status := TransactionStatus.PENDING }] }) :=
  ⟨rfl, rfl⟩

/-- C7 amended: for every stored transaction, the status-update helper
unconditionally overwrites the status with the requested one — any transition,
including backwards ones, is applied (and committed when `commit` is set). -/
theorem c7_setStatus_overwrites_unconditionally (db : DBState) (tid : String)
    (s : TransactionStatus) (t : Transaction) (c : Bool)
    (hfind : findTransaction db.transactions tid = some t) :
    update_transaction_status db tid s c =
      (Except.ok { t with status := s },
       if c then
         { db with transactions := storeTransaction db.transactions { t with status := s } }
       else db) := by
  unfold update_transaction_status
  rw [hfind]
  dsimp only
  cases c
  · rfl
  · rfl

/-- Witness for the amended C7 at the sample state. -/
theorem c7_setStatus_overwrites_unconditionally_witness :
    findTransaction dbC.transactions "t9" = some txC ∧
    update_transaction_status dbC "t9" TransactionStatus.REVERSED true =
      (Except.ok { txC with status := TransactionStatus.REVERSED },
       if true then
         { dbC with transactions := storeTransaction dbC.transactions { txC with status := TransactionStatus.REVERSED } }
       else dbC) :=
  ⟨rfl, c7_setStatus_overwrites_unconditionally dbC "t9" TransactionStatus.REVERSED txC true rfl⟩

end Zeta
